import Mathlib

/-!
Verification of the authentication and token-validation subsystem of the
vpnbot backend: a shallow embedding of
`src/shared/core/security/token.py` (class `TokenManager`),
`src/shared/core/security/auth.py` (class `AuthenticationManager`) and
`src/shared/core/security/password.py` (classes `PasswordHasher` and
`BasePasswordValidator`), followed by theorems about the embedded code.

Conventions of the embedding:
* Machine time is an explicit `Int` parameter (`now`), standing for
  `int(datetime.now(timezone.utc).timestamp())`.
* A Python function that can raise is embedded as returning
  `Except AuthError _`; raising is returning `.error`.
* A payload dict is embedded as a record of the claims this code ever
  reads or writes, with `none` for an absent key (`dict.get` giving `None`).
-/

namespace VpnBot

/-- The configuration fields of `app.core.settings.settings` read by the
token subsystem. -/
structure Settings where
  TOKEN_SECRET_KEY : String
  TOKEN_ALGORITHM : String
  TOKEN_EXPIRE_MINUTES : Nat
deriving DecidableEq, Repr

/-- The exceptions that flow through the subsystem. The first four are the
domain kinds of `app.core.exceptions` (TokenMissingError, TokenExpiredError,
TokenInvalidError, InvalidCredentialsError), `weakPassword` is
WeakPasswordError with its aggregated detail message, and `pyFault` stands
for any other Python exception (TypeError, a pydantic ValidationError, a
database error from the lookup collaborator, ...), tagged by its name. -/
inductive AuthError where
  | tokenMissing
  | tokenExpired
  | tokenInvalid
  | invalidCredentials
  | weakPassword (detail : String)
  | pyFault (name : String)
deriving DecidableEq, Repr

/-- Modelled from the spec: the exception-class module
`app.core.exceptions.auth` is not among the source files (only
`exceptions/base.py` is), so the extent of the `except TokenError` clause in
`AuthenticationManager.get_current_user` cannot be read off the code. The
failure taxonomy of the spec (section 7) states that TokenMissing,
TokenExpired, TokenInvalid and InvalidCredentials are each surfaced as-is by
the resolver, while any other unexpected internal fault is masked into
TokenInvalid; accordingly the `except TokenError` clause is modelled as
catching exactly these four domain kinds, and every other exception falls
through to the `except Exception` clause. -/
def AuthError.isDomainKind : AuthError → Bool
  | .tokenMissing => true
  | .tokenExpired => true
  | .tokenInvalid => true
  | .invalidCredentials => true
  | _ => false

/-- A JWT payload dict. `sub`, `expires_at`, `user_id`, `is_verified` and
`role` are the keys written by `TokenManager.create_payload`; `exp` is the
standard registered expiry claim that `jose.jwt.decode` checks on its own
(never written by `create_payload`). `expires_at := none` models an absent
key; a present but non-numeric value behaves identically in this code,
because the only consumer is the integer comparison in
`TokenManager.is_expired`, which raises `TypeError` either way. -/
structure Payload where
  sub : Option String := none
  expires_at : Option Int := none
  user_id : Option Nat := none
  is_verified : Option Bool := none
  role : Option String := none
  exp : Option Int := none
deriving DecidableEq, Repr

/-- A bearer-token string, partitioned by how `jose.jwt.decode` treats it:
`signed p k a` is the (always non-empty) string returned by
`jwt.encode(p, key=k, algorithm=a)`, `garbage s` is any string `s` that is
not a well-formed signed token, and `empty` is the empty string (an absent
credential is normalized to `empty` by the OAuth2 scheme with
`auto_error=False`). -/
inductive TokenStr where
  | empty
  | signed (p : Payload) (key : String) (alg : String)
  | garbage (s : String)
deriving DecidableEq, Repr

/-- Python truthiness of the token string (`if not token`). -/
def TokenStr.truthy : TokenStr → Bool
  | .empty => false
  | .signed _ _ _ => true
  | .garbage s => !s.isEmpty

/-- The two exception classes of `jose.exceptions` distinguished by
`TokenManager.decode_token` (`ExpiredSignatureError` is caught before the
broader `JWTError`). -/
inductive JoseError where
  | expiredSignature
  | jwtError
deriving DecidableEq, Repr

/-- Model of `jose.jwt.decode(token, key, algorithms)`: decoding succeeds
iff the token was signed with the same key and one of the accepted
algorithms; if the payload carries the registered `exp` claim and it lies in
the past (python-jose raises on `exp < now` with zero leeway), decoding
raises `ExpiredSignatureError`; every other failure (garbage input, wrong
key, unaccepted algorithm) raises a `JWTError`. -/
def jose_decode (now : Int) (token : TokenStr) (key : String)
    (algs : List String) : Except JoseError Payload :=
  match token with
  | .empty => .error .jwtError
  | .garbage _ => .error .jwtError
  | .signed p k a =>
    if k = key ∧ a ∈ algs then
      match p.exp with
      | some e => if e < now then .error .expiredSignature else .ok p
      | none => .ok p
    else .error .jwtError

/-- `TokenManager.generate_token`: `jwt.encode(payload,
key=settings.TOKEN_SECRET_KEY, algorithm=settings.TOKEN_ALGORITHM)`. -/
def generate_token (s : Settings) (payload : Payload) : TokenStr :=
  .signed payload s.TOKEN_SECRET_KEY s.TOKEN_ALGORITHM

/-- `TokenManager.decode_token`: `jwt.decode` with the configured key and
algorithm list, mapping `ExpiredSignatureError` to TokenExpiredError and
`JWTError` to TokenInvalidError. -/
def decode_token (now : Int) (s : Settings) (token : TokenStr) :
    Except AuthError Payload :=
  match jose_decode now token s.TOKEN_SECRET_KEY [s.TOKEN_ALGORITHM] with
  | .ok p => .ok p
  | .error .expiredSignature => .error .tokenExpired
  | .error .jwtError => .error .tokenInvalid

/-- `TokenManager.get_token_expiration`:
`settings.TOKEN_EXPIRE_MINUTES * 60` seconds. -/
def get_token_expiration (s : Settings) : Int :=
  (s.TOKEN_EXPIRE_MINUTES : Int) * 60

/-- The user object read by `TokenManager.create_payload` (attributes
`email`, `id`, `is_verified`, `role`). -/
structure UserModel where
  email : String
  id : Nat
  is_verified : Bool
  role : String
deriving DecidableEq, Repr

/-- `TokenManager.create_payload`: the issued claim set, with
`expires_at = int(now_utc.timestamp()) + get_token_expiration()`. No
registered `exp` claim is written. -/
def create_payload (now : Int) (s : Settings) (user : UserModel) : Payload :=
  { sub := some user.email
    expires_at := some (now + get_token_expiration s)
    user_id := some user.id
    is_verified := some user.is_verified
    role := some user.role
    exp := none }

/-- `TokenManager.is_expired`: `current_timestamp > expires_at`. -/
def is_expired (now : Int) (expires_at : Int) : Bool :=
  now > expires_at

/-- `TokenManager.verify_token`: raise TokenMissingError on a falsy token,
else decode. -/
def verify_token (now : Int) (s : Settings) (token : TokenStr) :
    Except AuthError Payload :=
  if token.truthy then decode_token now s token
  else .error .tokenMissing

/-- Python truthiness of an optional string (`if not email` after
`payload.get("sub")`). -/
def strTruthy : Option String → Bool
  | none => false
  | some s => !s.isEmpty

/-- `TokenManager.validate_payload`. Reads `sub` and `expires_at` with
`dict.get`, raises InvalidCredentialsError on a falsy email, then calls
`is_expired(expires_at)`; when `expires_at` is `None` (or non-numeric) the
comparison `current_timestamp > expires_at` inside `is_expired` raises
`TypeError`, embedded here as `pyFault "TypeError"`. -/
def validate_payload (now : Int) (payload : Payload) :
    Except AuthError String :=
  let email := payload.sub
  let expires_at := payload.expires_at
  if strTruthy email then
    match expires_at with
    | none => .error (.pyFault "TypeError")
    | some e =>
      if is_expired now e then .error .tokenExpired
      else .ok (email.getD "")
  else .error .invalidCredentials

/-- `app.schemas.UserCredentialsSchema`, the result of
`UserCredentialsSchema.model_validate(user)`. -/
structure UserCredentialsSchema where
  id : Nat
  username : String
  email : String
  role : String
  is_active : Bool
  is_verified : Bool
deriving DecidableEq, Repr

/-- `app.schemas.CurrentUserSchema`, constructed field by field from the
credentials schema at the end of `get_current_user`. -/
structure CurrentUserSchema where
  id : Nat
  username : String
  email : String
  role : String
  is_active : Bool
  is_verified : Bool
deriving DecidableEq, Repr

/-- The `try:` body of `AuthenticationManager.get_current_user`: verify the
token, validate the payload, look the user up by email through the injected
`auth_service` (the `lookup` collaborator, which may itself raise), on a
`None` user raise InvalidCredentialsError, validate the user object against
the pydantic schema (the `model_validate` collaborator, which may raise a
ValidationError), and build the `CurrentUserSchema`. `U` is the type of the
raw user object returned by the service. -/
def get_current_user_body {U : Type} (now : Int) (s : Settings)
    (lookup : String → Except AuthError (Option U))
    (model_validate : U → Except AuthError UserCredentialsSchema)
    (token : TokenStr) : Except AuthError CurrentUserSchema :=
  match verify_token now s token with
  | .error e => .error e
  | .ok payload =>
    match validate_payload now payload with
    | .error e => .error e
    | .ok user_email =>
      match lookup user_email with
      | .error e => .error e
      | .ok none => .error .invalidCredentials
      | .ok (some user) =>
        match model_validate user with
        | .error e => .error e
        | .ok us =>
          .ok { id := us.id
                username := us.username
                email := us.email
                role := us.role
                is_active := us.is_active
                is_verified := us.is_verified }

/-- `AuthenticationManager.get_current_user`: the `if not token` presence
check runs before the `try:` block; the `except TokenError: raise` clause
re-raises the domain kinds unchanged (see `AuthError.isDomainKind`), and the
`except Exception` clause turns every other exception into
TokenInvalidError. -/
def get_current_user {U : Type} (now : Int) (s : Settings)
    (lookup : String → Except AuthError (Option U))
    (model_validate : U → Except AuthError UserCredentialsSchema)
    (token : TokenStr) : Except AuthError CurrentUserSchema :=
  if token.truthy then
    match get_current_user_body now s lookup model_validate token with
    | .ok u => .ok u
    | .error e => if e.isDomainKind then .error e else .error .tokenInvalid
  else .error .tokenMissing

/-! ## `src/shared/core/security/password.py` -/

/-- Outcome of `pwd_context.verify(plain_password, hashed_password)`, the
passlib `CryptContext.verify` call, modelled at its interface (passlib is an
external dependency; its internals are outside the embedded code). In
passlib 1.7.4 the call returns a boolean; it raises
`passlib.exc.UnknownHashError` when no configured scheme identifies the
hash string (a foreign format such as `not-a-real-hash`); and it raises a
plain `ValueError` (built by the passlib `MalformedHashError` helper) when
a scheme identifies the hash by its prefix but its body fails to parse (an
identified-but-malformed hash such as `$argon2id$garbage`). -/
inductive CryptVerifyOutcome where
  | ret (b : Bool)
  | unknownHashError
  | valueError
deriving DecidableEq, Repr

/-- `PasswordHasher.verify`: `pwd_context.verify(plain_password,
hashed_password)` with `passlib.exc.UnknownHashError` caught, logged at
warning level, and turned into `False`. The except clause names only
`passlib.exc.UnknownHashError`, so a plain `ValueError` raised for an
identified-but-malformed hash is not caught and propagates to the
caller. -/
def PasswordHasher.verify
    (cc_verify : String → String → CryptVerifyOutcome)
    (hashed_password plain_password : String) : Except AuthError Bool :=
  match cc_verify plain_password hashed_password with
  | .ret b => .ok b
  | .unknownHashError => .ok false
  | .valueError => .error (.pyFault "ValueError")

/-- `str.lower()` on one character, restricted to the alphabets this
validator handles (ASCII Latin and Russian Cyrillic; every other character
is left unchanged). The uppercase Cyrillic block А..Я maps to а..я by
adding 32 code points, as in ASCII. -/
def pyLowerChar (c : Char) : Char :=
  if ('A' ≤ c ∧ c ≤ 'Z') ∨ ('А' ≤ c ∧ c ≤ 'Я') then Char.ofNat (c.toNat + 32)
  else if c = 'Ё' then 'ё'
  else c

/-- `str.lower()` on a string. -/
def pyLower (s : String) : String :=
  String.mk (s.toList.map pyLowerChar)

/-- Membership in the regex character class `[A-ZА-Я]` used by the
uppercase-letter rule: ASCII A..Z or Cyrillic А..Я, by code point. -/
def upperClass (c : Char) : Bool :=
  ('A' ≤ c ∧ c ≤ 'Z') ∨ ('А' ≤ c ∧ c ≤ 'Я')

/-- Membership in the regex character class `[a-zа-я]` used by the
lowercase-letter rule. -/
def lowerClass (c : Char) : Bool :=
  ('a' ≤ c ∧ c ≤ 'z') ∨ ('а' ≤ c ∧ c ≤ 'я')

/-- Membership in the regex class `\d`. Python `re` matches any Unicode
decimal digit; the passwords this development evaluates only use the ASCII
range, which `Char.isDigit` covers. -/
def digitClass (c : Char) : Bool :=
  c.isDigit

/-- Membership in the special-character regex class, written out literally
from the source pattern. -/
def specialClass (c : Char) : Bool :=
  ['!', '@', '#', '$', '%', '^', '&', '*', '(', ')', ',', '.', '?', '"',
   ':', '\x7b', '\x7d', '|', '<', '>'].contains c

/-- Python substring containment `needle in hay`. -/
def pyContains (hay needle : String) : Bool :=
  (List.range (hay.toList.length + 1)).any fun i =>
    needle.toList.isPrefixOf (hay.toList.drop i)

def msg_length : String := "Пароль должен содержать минимум 8 символов"

def msg_upper : String :=
  "Пароль должен содержать хотя бы одну заглавную букву"

def msg_lower : String :=
  "Пароль должен содержать хотя бы одну строчную букву"

def msg_digit : String := "Пароль должен содержать хотя бы одну цифру"

def msg_special : String :=
  "Пароль должен содержать хотя бы один специальный символ"

def msg_common : String :=
  "Пароль не должен содержать распространенные последовательности"

def msg_username : String := "Пароль не должен содержать имя пользователя"

/-- The deny-list `common_sequences` of the source. -/
def common_sequences : List String :=
  ["12345", "qwerty", "password", "admin", "123456789", "abc123"]

/-- The `errors` list accumulated by
`BasePasswordValidator.validate_password_strength`, in source order: each
rule is checked unconditionally and appends its message when violated. The
username rule runs only when `username` is truthy and longer than 3. -/
def password_errors (password : String) (username : Option String) :
    List String :=
  (if password.length < 8 then [msg_length] else []) ++
  (if !(password.toList.any upperClass) then [msg_upper] else []) ++
  (if !(password.toList.any lowerClass) then [msg_lower] else []) ++
  (if !(password.toList.any digitClass) then [msg_digit] else []) ++
  (if !(password.toList.any specialClass) then [msg_special] else []) ++
  (if common_sequences.any (fun seq => pyContains (pyLower password) seq)
    then [msg_common] else []) ++
  (match username with
   | none => []
   | some u =>
     if !u.isEmpty ∧ u.length > 3 ∧ pyContains (pyLower password) (pyLower u)
       then [msg_username] else [])

/-- Python `"; ".join(errors)`. -/
def joinSemicolon : List String → String
  | [] => ""
  | [m] => m
  | m :: ms => m ++ "; " ++ joinSemicolon ms

/-- `BasePasswordValidator.validate_password_strength`: raise
WeakPasswordError with the joined messages when any rule is violated,
otherwise return the password unchanged. -/
def validate_password_strength (password : String)
    (username : Option String) : Except AuthError String :=
  let errors := password_errors password username
  if errors.isEmpty then .ok password
  else .error (.weakPassword (joinSemicolon errors))

end VpnBot

deriving instance DecidableEq for Except

namespace VpnBot

/-! ## Helper lemmas shared by the claim theorems -/

/-- A well-signed token with no registered `exp` claim decodes back to its
payload at any time. -/
theorem decode_token_generate (now : Int) (s : Settings) (p : Payload)
    (h : p.exp = none) :
    decode_token now s (generate_token s p) = .ok p := by
  simp [decode_token, generate_token, jose_decode, h]

/-- The success case of `validate_payload`: truthy subject and an
`expires_at` that has not passed. -/
theorem validate_payload_ok (now e : Int) (p : Payload)
    (h1 : strTruthy p.sub = true) (h2 : p.expires_at = some e)
    (h3 : ¬ now > e) :
    validate_payload now p = .ok (p.sub.getD "") := by
  simp [validate_payload, h1, h2, is_expired, h3]

/-- A string different from the empty string has `isEmpty = false`. -/
theorem email_isEmpty_false (e : String) (h : e ≠ "") : e.isEmpty = false := by
  rw [Bool.eq_false_iff]
  intro hh
  exact h ((String.isEmpty_iff e).mp hh)

/-- Membership in a conditional singleton list. -/
theorem mem_ite_singleton {α : Type} (c : Prop) [Decidable c] (a b : α) :
    (a ∈ if c then [b] else []) ↔ c ∧ a = b := by
  split <;> simp_all

/-! ## Claim theorems -/

/-- C1: for every user record with a non-empty email, resolving the token
produced by `generate_token(create_payload(user))` through
`get_current_user` succeeds and returns an identity whose email matches the
email of the user, provided the lookup collaborator returns a matching user
record for that email and the token has not expired at resolution time. -/
theorem round_trip {U : Type} (issued now : Int) (s : Settings)
    (user : UserModel)
    (lookup : String → Except AuthError (Option U))
    (model_validate : U → Except AuthError UserCredentialsSchema)
    (u : U) (schema : UserCredentialsSchema)
    (hemail : user.email ≠ "")
    (hnow : now ≤ issued + get_token_expiration s)
    (hlookup : lookup user.email = .ok (some u))
    (hmv : model_validate u = .ok schema)
    (hmatch : schema.email = user.email) :
    ∃ cu : CurrentUserSchema,
      get_current_user now s lookup model_validate
          (generate_token s (create_payload issued s user))
        = .ok cu ∧ cu.email = user.email := by
  have hne : user.email.isEmpty = false := email_isEmpty_false _ hemail
  have hdec : decode_token now s
      (generate_token s (create_payload issued s user))
      = .ok (create_payload issued s user) :=
    decode_token_generate now s _ rfl
  have hval : validate_payload now (create_payload issued s user)
      = .ok user.email := by
    simp [validate_payload, create_payload, strTruthy, hne, is_expired]
    omega
  refine ⟨⟨schema.id, schema.username, schema.email, schema.role,
      schema.is_active, schema.is_verified⟩, ?_, hmatch⟩
  have htr : TokenStr.truthy (generate_token s (create_payload issued s user))
      = true := rfl
  simp only [get_current_user, get_current_user_body, verify_token, htr,
    if_true, hdec, hval, hlookup, hmv]

/-- C1 witness: a concrete round trip through issuance and resolution. -/
theorem round_trip_witness :
    ∃ cu : CurrentUserSchema,
      get_current_user 1000 ⟨"k", "HS256", 1440⟩
          (fun e => if e = "alice@example.com"
            then Except.ok (some (7 : Nat)) else Except.ok none)
          (fun _ => Except.ok ⟨7, "alice", "alice@example.com", "user",
            true, true⟩)
          (generate_token ⟨"k", "HS256", 1440⟩
            (create_payload 1000 ⟨"k", "HS256", 1440⟩
              ⟨"alice@example.com", 7, true, "user"⟩))
        = .ok cu ∧ cu.email = "alice@example.com" :=
  round_trip 1000 1000 ⟨"k", "HS256", 1440⟩
    ⟨"alice@example.com", 7, true, "user"⟩
    (fun e => if e = "alice@example.com"
      then Except.ok (some (7 : Nat)) else Except.ok none)
    (fun _ => Except.ok ⟨7, "alice", "alice@example.com", "user",
      true, true⟩)
    7 ⟨7, "alice", "alice@example.com", "user", true, true⟩
    (by decide) (by decide) (by decide) rfl rfl

/-- C2: the issued payload carries `expires_at = issued_at + ttl`; expiry is
the strict comparison `current_time > expires_at`, so a payload checked at
exactly `issued_at + ttl` is still valid while at `issued_at + ttl + 1` it
fails with TokenExpired. -/
theorem expiry_boundary (issued : Int) (s : Settings) (user : UserModel)
    (h : user.email ≠ "") :
    (create_payload issued s user).expires_at
        = some (issued + get_token_expiration s) ∧
    is_expired (issued + get_token_expiration s)
        (issued + get_token_expiration s) = false ∧
    is_expired (issued + get_token_expiration s + 1)
        (issued + get_token_expiration s) = true ∧
    validate_payload (issued + get_token_expiration s)
        (create_payload issued s user) = .ok user.email ∧
    validate_payload (issued + get_token_expiration s + 1)
        (create_payload issued s user) = .error .tokenExpired := by
  have hne : user.email.isEmpty = false := email_isEmpty_false _ h
  refine ⟨rfl, ?_, ?_, ?_, ?_⟩
  · simp [is_expired]
  · simp [is_expired]
  · simp [validate_payload, create_payload, strTruthy, hne, is_expired]
  · simp [validate_payload, create_payload, strTruthy, hne, is_expired]

/-- C2 witness: the boundary at a concrete issue time and a one-minute
TTL. -/
theorem expiry_boundary_witness :
    validate_payload (1000 + get_token_expiration ⟨"k", "HS256", 1⟩)
        (create_payload 1000 ⟨"k", "HS256", 1⟩ ⟨"a@b", 1, true, "user"⟩)
      = .ok "a@b" ∧
    validate_payload (1000 + get_token_expiration ⟨"k", "HS256", 1⟩ + 1)
        (create_payload 1000 ⟨"k", "HS256", 1⟩ ⟨"a@b", 1, true, "user"⟩)
      = .error .tokenExpired :=
  ⟨(expiry_boundary 1000 ⟨"k", "HS256", 1⟩ ⟨"a@b", 1, true, "user"⟩
      (by decide)).2.2.2.1,
   (expiry_boundary 1000 ⟨"k", "HS256", 1⟩ ⟨"a@b", 1, true, "user"⟩
      (by decide)).2.2.2.2⟩

/-- C3: once the token-presence check has passed, an error of one of the
token kinds raised by the body of `get_current_user` propagates out
unchanged in kind, and any other exception raised by the body (a lookup
fault, a schema mismatch, any unexpected internal fault, all embedded as
`pyFault`) is caught and re-raised as TokenInvalid. -/
theorem error_masking {U : Type} (now : Int) (s : Settings)
    (lookup : String → Except AuthError (Option U))
    (model_validate : U → Except AuthError UserCredentialsSchema)
    (token : TokenStr) (e : AuthError)
    (htok : token.truthy = true)
    (hbody : get_current_user_body now s lookup model_validate token
      = .error e) :
    ((e = .tokenMissing ∨ e = .tokenExpired ∨ e = .tokenInvalid) →
      get_current_user now s lookup model_validate token = .error e) ∧
    (∀ msg, e = .pyFault msg →
      get_current_user now s lookup model_validate token
        = .error .tokenInvalid) := by
  constructor
  · intro hk
    rcases hk with h | h | h <;> subst h <;>
      simp [get_current_user, htok, hbody, AuthError.isDomainKind]
  · intro msg hmsg
    subst hmsg
    simp [get_current_user, htok, hbody, AuthError.isDomainKind]

/-- C3 witness: a lookup collaborator that raises an OSError is masked into
TokenInvalid. -/
theorem error_masking_witness :
    get_current_user 0 ⟨"k", "HS256", 1⟩
      (fun _ => Except.error (AuthError.pyFault "OSError") :
        String → Except AuthError (Option Nat))
      (fun _ => Except.ok ⟨0, "", "", "", false, false⟩)
      (TokenStr.signed { sub := some "a@b", expires_at := some 10 }
        "k" "HS256")
      = .error .tokenInvalid :=
  (error_masking 0 ⟨"k", "HS256", 1⟩
    (fun _ => Except.error (AuthError.pyFault "OSError") :
      String → Except AuthError (Option Nat))
    (fun _ => Except.ok ⟨0, "", "", "", false, false⟩)
    (TokenStr.signed { sub := some "a@b", expires_at := some 10 }
      "k" "HS256")
    (.pyFault "OSError") rfl (by decide)).2 "OSError" rfl

/-- C4: verify_token and get_current_user fail with TokenMissing on the
empty token whatever the collaborators do (the presence check runs before
the codec is invoked), a non-empty string that is not a validly signed
token fails with TokenInvalid, and the two failure kinds are distinct. -/
theorem missing_vs_invalid (now : Int) (s : Settings) :
    verify_token now s .empty = .error .tokenMissing ∧
    (∀ (U : Type) (lookup : String → Except AuthError (Option U))
        (model_validate : U → Except AuthError UserCredentialsSchema),
        get_current_user now s lookup model_validate .empty
          = .error .tokenMissing) ∧
    (∀ (U : Type) (lookup : String → Except AuthError (Option U))
        (model_validate : U → Except AuthError UserCredentialsSchema)
        (g : String), g ≠ "" →
        get_current_user now s lookup model_validate (.garbage g)
          = .error .tokenInvalid) ∧
    AuthError.tokenMissing ≠ AuthError.tokenInvalid := by
  refine ⟨rfl, ?_, ?_, by decide⟩
  · intro U lookup mv
    simp [get_current_user, TokenStr.truthy]
  · intro U lookup mv g hg
    have hne : g.isEmpty = false := email_isEmpty_false g hg
    simp [get_current_user, get_current_user_body, verify_token,
      TokenStr.truthy, hne, decode_token, jose_decode, AuthError.isDomainKind]

/-- C4 witness: the empty token and a concrete garbage token. -/
theorem missing_vs_invalid_witness :
    get_current_user 0 ⟨"k", "HS256", 1⟩
        (fun _ => Except.ok (none : Option Nat))
        (fun _ => Except.ok ⟨0, "", "", "", false, false⟩)
        TokenStr.empty = .error .tokenMissing ∧
    get_current_user 0 ⟨"k", "HS256", 1⟩
        (fun _ => Except.ok (none : Option Nat))
        (fun _ => Except.ok ⟨0, "", "", "", false, false⟩)
        (TokenStr.garbage "zzz") = .error .tokenInvalid :=
  ⟨(missing_vs_invalid 0 ⟨"k", "HS256", 1⟩).2.1 Nat _ _,
   (missing_vs_invalid 0 ⟨"k", "HS256", 1⟩).2.2.1 Nat _ _ "zzz" (by decide)⟩

/-- C5: a token that verifies and whose payload passes claim validation,
but whose subject the lookup collaborator resolves to `None`, makes
`get_current_user` fail with InvalidCredentials, which is distinct from
TokenInvalid. -/
theorem lookup_none_invalid_credentials {U : Type} (now e : Int)
    (s : Settings) (p : Payload)
    (lookup : String → Except AuthError (Option U))
    (model_validate : U → Except AuthError UserCredentialsSchema)
    (hsub : strTruthy p.sub = true)
    (hexp : p.expires_at = some e) (he : ¬ now > e)
    (hexpclaim : p.exp = none)
    (hlookup : lookup (p.sub.getD "") = .ok none) :
    get_current_user now s lookup model_validate
        (TokenStr.signed p s.TOKEN_SECRET_KEY s.TOKEN_ALGORITHM)
      = .error .invalidCredentials ∧
    AuthError.invalidCredentials ≠ AuthError.tokenInvalid := by
  have hdec : decode_token now s
      (.signed p s.TOKEN_SECRET_KEY s.TOKEN_ALGORITHM) = .ok p := by
    simp [decode_token, jose_decode, hexpclaim]
  have hval := validate_payload_ok now e p hsub hexp he
  refine ⟨?_, by decide⟩
  simp only [get_current_user, get_current_user_body, verify_token,
    TokenStr.truthy, if_true, hdec, hval, hlookup]
  simp [AuthError.isDomainKind]

/-- C5 witness: a structurally valid token whose subject is unknown to the
lookup collaborator. -/
theorem lookup_none_invalid_credentials_witness :
    get_current_user 0 ⟨"k", "HS256", 1⟩
        (fun _ => Except.ok (none : Option Nat))
        (fun _ => Except.ok ⟨0, "", "", "", false, false⟩)
        (TokenStr.signed { sub := some "a@b", expires_at := some 1 }
          "k" "HS256")
      = .error .invalidCredentials :=
  (lookup_none_invalid_credentials 0 1 ⟨"k", "HS256", 1⟩
    { sub := some "a@b", expires_at := some 1 }
    (fun _ => Except.ok (none : Option Nat))
    (fun _ => Except.ok ⟨0, "", "", "", false, false⟩)
    (by decide) rfl (by decide) rfl rfl).1

/-- C6 counterexample: a payload with a non-empty subject and no
`expires_at` claim makes `validate_payload` raise TypeError (the integer
comparison against `None`), not TokenExpired and not InvalidCredentials,
refuting the claim that an absent `expires_at` fails with TokenExpired. -/
theorem validate_payload_missing_expiry_counterexample :
    validate_payload 0 { sub := some "user@example.com" }
        = .error (.pyFault "TypeError") ∧
    validate_payload 0 { sub := some "user@example.com" }
        ≠ .error .tokenExpired ∧
    validate_payload 0 { sub := some "user@example.com" }
        ≠ .error .invalidCredentials := by decide

/-- C6 amended: a payload with an absent or empty subject fails with
InvalidCredentials (that check runs first); a payload with a truthy subject
and an absent (or non-numeric) `expires_at` raises TypeError rather than
TokenExpired; a payload with a truthy subject and an unexpired numeric
`expires_at` passes and yields the subject. -/
theorem validate_payload_taxonomy (now : Int) (p : Payload) :
    (strTruthy p.sub = false →
      validate_payload now p = .error .invalidCredentials) ∧
    (strTruthy p.sub = true → p.expires_at = none →
      validate_payload now p = .error (.pyFault "TypeError")) ∧
    (∀ e, strTruthy p.sub = true → p.expires_at = some e → ¬ now > e →
      validate_payload now p = .ok (p.sub.getD "")) := by
  refine ⟨?_, ?_, ?_⟩
  · intro h
    simp [validate_payload, h]
  · intro h1 h2
    simp [validate_payload, h1, h2]
  · intro e h1 h2 h3
    exact validate_payload_ok now e p h1 h2 h3

/-- C6 witness: the success branch of the amended taxonomy at a concrete
payload. -/
theorem validate_payload_taxonomy_witness :
    validate_payload 5 { sub := some "a@b", expires_at := some 9 }
      = .ok "a@b" :=
  (validate_payload_taxonomy 5
    { sub := some "a@b", expires_at := some 9 }).2.2 9 (by decide) rfl
    (by decide)

/-- C7: `validate_password_strength` evaluates every rule without
short-circuiting and aggregates all violations into one failure: on
`"abc"` with no username it reports exactly the four violations length,
uppercase, digit and special character in a single WeakPassword error; in
general it fails with the joined message list whenever at least one rule is
violated, and returns the password unchanged when no rule is violated. -/
theorem strength_aggregation :
    password_errors "abc" none
        = [msg_length, msg_upper, msg_digit, msg_special] ∧
    4 ≤ (password_errors "abc" none).length ∧
    validate_password_strength "abc" none
        = .error (.weakPassword (joinSemicolon
            [msg_length, msg_upper, msg_digit, msg_special])) ∧
    (∀ pw u, password_errors pw u ≠ [] →
      validate_password_strength pw u
        = .error (.weakPassword (joinSemicolon (password_errors pw u)))) ∧
    (∀ pw u, password_errors pw u = [] →
      validate_password_strength pw u = .ok pw) := by
  refine ⟨by decide, by decide, by decide, ?_, ?_⟩
  · intro pw u h
    simp [validate_password_strength, List.isEmpty_iff, h]
  · intro pw u h
    simp [validate_password_strength, List.isEmpty_iff, h]

/-- C7 witness: a password that satisfies every rule is returned
unchanged. -/
theorem strength_aggregation_witness :
    validate_password_strength "Tr0ng.pw" none = .ok "Tr0ng.pw" :=
  strength_aggregation.2.2.2.2 "Tr0ng.pw" none (by decide)

/-- C8 counterexample: with the passlib context behaving as documented
(UnknownHashError for the unidentifiable `not-a-real-hash`, a plain
ValueError for the identified-but-malformed `$argon2id$garbage`),
`PasswordHasher.verify` on the malformed hash propagates the ValueError and
returns no boolean, refuting the claim that verify never raises for every
hash string; the foreign hash by contrast yields false. -/
theorem verify_malformed_hash_counterexample :
    PasswordHasher.verify
        (fun _ h => if h = "not-a-real-hash"
          then CryptVerifyOutcome.unknownHashError
          else if h = "$argon2id$garbage" then CryptVerifyOutcome.valueError
          else CryptVerifyOutcome.ret false)
        "$argon2id$garbage" "anything"
      = .error (.pyFault "ValueError") ∧
    PasswordHasher.verify
        (fun _ h => if h = "not-a-real-hash"
          then CryptVerifyOutcome.unknownHashError
          else if h = "$argon2id$garbage" then CryptVerifyOutcome.valueError
          else CryptVerifyOutcome.ret false)
        "$argon2id$garbage" "anything" ≠ .ok true ∧
    PasswordHasher.verify
        (fun _ h => if h = "not-a-real-hash"
          then CryptVerifyOutcome.unknownHashError
          else if h = "$argon2id$garbage" then CryptVerifyOutcome.valueError
          else CryptVerifyOutcome.ret false)
        "$argon2id$garbage" "anything" ≠ .ok false ∧
    PasswordHasher.verify
        (fun _ h => if h = "not-a-real-hash"
          then CryptVerifyOutcome.unknownHashError
          else if h = "$argon2id$garbage" then CryptVerifyOutcome.valueError
          else CryptVerifyOutcome.ret false)
        "not-a-real-hash" "anything" = .ok false := by decide

/-- C8 amended: `PasswordHasher.verify` returns the boolean of the context
when the context returns one; it catches UnknownHashError (the decode
failure for a hash no scheme identifies, such as a foreign format) and
returns false; but when the context raises a plain ValueError for an
identified-but-malformed hash, the exception is not caught and propagates
to the caller. -/
theorem verify_exception_paths
    (cc_verify : String → String → CryptVerifyOutcome)
    (hashed plain : String) :
    (∀ b : Bool, cc_verify plain hashed = .ret b →
      PasswordHasher.verify cc_verify hashed plain = .ok b) ∧
    (cc_verify plain hashed = .unknownHashError →
      PasswordHasher.verify cc_verify hashed plain = .ok false) ∧
    (cc_verify plain hashed = .valueError →
      PasswordHasher.verify cc_verify hashed plain
        = .error (.pyFault "ValueError")) := by
  refine ⟨?_, ?_, ?_⟩
  · intro b h
    simp [PasswordHasher.verify, h]
  · intro h
    simp [PasswordHasher.verify, h]
  · intro h
    simp [PasswordHasher.verify, h]

/-- C8 witness: a foreign hash string yields false rather than an
exception. -/
theorem verify_exception_paths_witness :
    PasswordHasher.verify (fun _ _ => CryptVerifyOutcome.unknownHashError)
      "not-a-real-hash" "anything" = .ok false :=
  (verify_exception_paths (fun _ _ => CryptVerifyOutcome.unknownHashError)
    "not-a-real-hash" "anything").2.1 rfl

/-- C9 counterexample: the password `"Ωabcdef1!"` contains the Greek
uppercase letter Omega, yet the uppercase rule is reported as violated (and
is the only violation), refuting the claim that an uppercase letter of any
Unicode script satisfies the rule. -/
theorem upper_rule_unicode_counterexample :
    'Ω' ∈ "Ωabcdef1!".toList ∧
    msg_upper ∈ password_errors "Ωabcdef1!" none ∧
    validate_password_strength "Ωabcdef1!" none
      = .error (.weakPassword msg_upper) := by decide

/-- C9 amended: the uppercase rule is the regex class `[A-ZА-Я]`: it
accepts ASCII and Cyrillic uppercase letters (so it is wider than ASCII),
and the uppercase violation is reported exactly when the password contains
no character of that class, so uppercase letters of other scripts (Greek,
accented Latin) do not satisfy it. -/
theorem upper_rule_char_ranges (pw : String) (u : Option String) :
    msg_upper ∈ password_errors pw u ↔ pw.toList.any upperClass = false := by
  have h1 : msg_upper ≠ msg_length := by decide
  have h2 : msg_upper ≠ msg_lower := by decide
  have h3 : msg_upper ≠ msg_digit := by decide
  have h4 : msg_upper ≠ msg_special := by decide
  have h5 : msg_upper ≠ msg_common := by decide
  have h6 : msg_upper ≠ msg_username := by decide
  cases hup : pw.toList.any upperClass with
  | false =>
    refine iff_of_true ?_ rfl
    unfold password_errors
    simp only [hup, Bool.not_false, eq_self_iff_true, if_true]
    exact List.mem_append_left _ (List.mem_append_left _
      (List.mem_append_left _ (List.mem_append_left _
        (List.mem_append_left _ (List.mem_append_right _
          (List.mem_singleton_self _))))))
  | true =>
    refine iff_of_false ?_ (by simp)
    intro hmem
    unfold password_errors at hmem
    simp only [hup, Bool.not_true, if_false, List.nil_append,
      List.mem_append, mem_ite_singleton, List.not_mem_nil,
      h1, h2, h3, h4, h5, h6, and_false, or_false, false_or] at hmem
    cases u with
    | none => simp at hmem
    | some un =>
      simp only [mem_ite_singleton] at hmem
      rcases hmem with ⟨hc, _⟩ | ⟨_, hh⟩
      · exact absurd hc (by decide)
      · exact h6 hh

/-- C9 witness: a password whose only uppercase letter is Cyrillic passes
the uppercase rule, and the Greek one does not. -/
theorem upper_rule_char_ranges_witness :
    msg_upper ∈ password_errors "Ωabcdef1!" none ∧
    (msg_upper ∈ password_errors "Яabcdef1!" none ↔ False) := by
  constructor
  · exact (upper_rule_char_ranges "Ωabcdef1!" none).mpr (by decide)
  · rw [upper_rule_char_ranges "Яabcdef1!" none]
    decide

/-- C10: the payload produced by `create_payload` carries no registered
`exp` claim, so a token produced by `generate_token(create_payload(user))`
decodes successfully at every decode time (the ExpiredSignatureError branch
of `decode_token` is unreachable for issued tokens), and expiry of issued
tokens is enforced only by the `expires_at` check in `validate_payload`. -/
theorem issued_token_no_exp_claim (now now2 : Int) (s : Settings)
    (user : UserModel) :
    (create_payload now s user).exp = none ∧
    decode_token now2 s (generate_token s (create_payload now s user))
      = .ok (create_payload now s user) ∧
    decode_token now2 s (generate_token s (create_payload now s user))
      ≠ .error .tokenExpired ∧
    (user.email ≠ "" →
      (validate_payload now2 (create_payload now s user)
          = .error .tokenExpired
        ↔ now + get_token_expiration s < now2)) := by
  have hdec : decode_token now2 s
      (generate_token s (create_payload now s user))
      = .ok (create_payload now s user) :=
    decode_token_generate now2 s _ rfl
  refine ⟨rfl, hdec, by simp [hdec], ?_⟩
  intro hemail
  have hne : user.email.isEmpty = false := email_isEmpty_false _ hemail
  constructor
  · intro hval
    by_contra hlt
    have hok : validate_payload now2 (create_payload now s user)
        = .ok user.email := by
      simp [validate_payload, create_payload, strTruthy, hne, is_expired]
      omega
    rw [hok] at hval
    exact Except.noConfusion hval
  · intro hlt
    simp [validate_payload, create_payload, strTruthy, hne, is_expired]
    omega

/-- C10 witness: a token issued at time 0 with a one-minute TTL decodes far
in the future, and its payload fails validation exactly after the TTL. -/
theorem issued_token_no_exp_claim_witness :
    decode_token 999999 ⟨"k", "HS256", 1⟩
        (generate_token ⟨"k", "HS256", 1⟩
          (create_payload 0 ⟨"k", "HS256", 1⟩ ⟨"a@b", 1, true, "user"⟩))
      = .ok (create_payload 0 ⟨"k", "HS256", 1⟩
          ⟨"a@b", 1, true, "user"⟩) ∧
    (validate_payload 61
        (create_payload 0 ⟨"k", "HS256", 1⟩ ⟨"a@b", 1, true, "user"⟩)
      = .error .tokenExpired
      ↔ 0 + get_token_expiration ⟨"k", "HS256", 1⟩ < 61) :=
  ⟨(issued_token_no_exp_claim 0 999999 ⟨"k", "HS256", 1⟩
      ⟨"a@b", 1, true, "user"⟩).2.1,
   (issued_token_no_exp_claim 0 61 ⟨"k", "HS256", 1⟩
      ⟨"a@b", 1, true, "user"⟩).2.2.2 (by decide)⟩

end VpnBot
